import Mathlib

/-!
Shallow embedding of the Streamlit + Supabase + Mem0 chat application
(`iterations/v3-streamlit-supabase-mem0.py`).

External services (the Supabase auth provider, the Mem0 memory store and the
OpenAI completion endpoint) are modelled as oracle arguments: each call site
receives the outcome (`Except.ok` value or `Except.error` exception) the
service would have produced, and the calls actually issued by the code are
recorded in an event trace.  Streamlit's `st.session_state` becomes the
explicit record `SessionState`; `st.error` reports become `Option String`
results; `st.stop()` becomes the `appRender` flag being `false`.
-/

/-- A chat message, as the dicts `{"role": ..., "content": ...}` in the script. -/
structure Message where
  role : String
  content : String
deriving DecidableEq

/-- The user object returned by the auth provider (`response.user`): the script
reads its `id` and `email` fields. -/
structure User where
  id : String
  email : String
deriving DecidableEq

/-- The per-context `st.session_state` fields the script uses: `messages`
(the transcript), `authenticated`, `user`, and the `logout_requested` rerun
flag set by `sign_out` and consumed at the next render. -/
structure SessionState where
  messages : List Message
  authenticated : Bool
  user : Option User
  logout_requested : Bool
deriving DecidableEq

/-- One entry of `memory.search(...)["results"]`; the script reads
`entry['memory']`. -/
structure MemRecord where
  memory : String
deriving DecidableEq

/-- A call issued to an external service during a turn or a sidebar action. -/
inductive Event where
  | searchCall (query userId : String) (limit : Nat)
  | completionCall (model : String) (msgs : List Message)
  | addCall (msgs : List Message) (userId : String)
  | clearCall (userId : String)
deriving DecidableEq

/-- The fixed instruction text of the f-string `system_prompt` at line 142,
up to and including `"User Memories:\n"`; the joined memory texts follow it. -/
def groundingHeader : String :=
  "You are a helpful AI assistant with memory. Answer the question based on the query and user\x27s memories.\nUser Memories:\n"

/-- Line 139: `"\n".join(f"- {entry['memory']}" for entry in relevant_memories["results"])`. -/
def memoriesStr (results : List MemRecord) : String :=
  String.intercalate "\n" (results.map (fun entry => "- " ++ entry.memory))

/-- `chat_with_memories(message, user_id)` (lines 136-153).  `searchRes`,
`completionRes` and `addRes` are the outcomes of `memory.search`,
`openai_client.chat.completions.create` and `memory.add`; the first component
is the function's own outcome (`.error` = the exception that propagated), the
second the calls it issued, in order. -/
def chatWithMemories (model message userId : String)
    (searchRes : Except String (List MemRecord))
    (completionRes : Except String String)
    (addRes : Except String Unit) :
    Except String String × List Event :=
  match searchRes with
  | .error e => (.error e, [.searchCall message userId 3])
  | .ok results =>
      let systemPrompt := groundingHeader ++ memoriesStr results
      let msgs : List Message := [⟨"system", systemPrompt⟩, ⟨"user", message⟩]
      match completionRes with
      | .error e => (.error e, [.searchCall message userId 3, .completionCall model msgs])
      | .ok assistantResponse =>
          let msgs2 := msgs ++ [⟨"assistant", assistantResponse⟩]
          match addRes with
          | .error e =>
              (.error e,
               [.searchCall message userId 3, .completionCall model msgs, .addCall msgs2 userId])
          | .ok _ =>
              (.ok assistantResponse,
               [.searchCall message userId 3, .completionCall model msgs, .addCall msgs2 userId])

/-- The chat-input block of the main interface (lines 230-260): it runs only
when `st.session_state.authenticated` and `st.session_state.user` hold and
`user_input` is truthy; it appends the user message to the transcript, calls
`chat_with_memories`, and appends the assistant message only on success (an
exception from `chat_with_memories` propagates, leaving the state as it then
is).  Second component: `some` outcome when the turn ran, `none` otherwise. -/
def chatInputHandler (model : String) (st : SessionState) (userInput : String)
    (searchRes : Except String (List MemRecord))
    (completionRes : Except String String)
    (addRes : Except String Unit) :
    SessionState × Option (Except String String) × List Event :=
  match st.authenticated, st.user with
  | true, some u =>
      if userInput = "" then (st, none, [])
      else
        let st1 : SessionState := { st with messages := st.messages ++ [⟨"user", userInput⟩] }
        match chatWithMemories model userInput u.id searchRes completionRes addRes with
        | (.error e, evs) => (st1, some (.error e), evs)
        | (.ok a, evs) =>
            ({ st1 with messages := st1.messages ++ [⟨"assistant", a⟩] }, some (.ok a), evs)
  | _, _ => (st, none, [])

/-- `sign_up(email, password, full_name)` (lines 87-106): on a provider
exception, report the error and change nothing; on a response carrying a user,
set both `authenticated` and `user`; on a response without a user (pending
email confirmation), change nothing.  Second component: the `st.error` text,
if any. -/
def sign_up (st : SessionState) (providerRes : Except String (Option User)) :
    SessionState × Option String :=
  match providerRes with
  | .error e => (st, some ("Error signing up: " ++ e))
  | .ok none => (st, none)
  | .ok (some u) => ({ st with authenticated := true, user := some u }, none)

/-- `sign_in(email, password)` (lines 108-121), same shape as `sign_up`. -/
def sign_in (st : SessionState) (providerRes : Except String (Option User)) :
    SessionState × Option String :=
  match providerRes with
  | .error e => (st, some ("Error signing in: " ++ e))
  | .ok none => (st, none)
  | .ok (some u) => ({ st with authenticated := true, user := some u }, none)

/-- `sign_out()` (lines 123-131): on provider success, clear `authenticated`
and `user` and set the `logout_requested` rerun flag; on a provider exception,
report the error and change nothing. -/
def sign_out (st : SessionState) (providerRes : Except String Unit) :
    SessionState × Option String :=
  match providerRes with
  | .error e => (st, some ("Error signing out: " ++ e))
  | .ok _ =>
      ({ st with authenticated := false, user := none, logout_requested := true }, none)

/-- The "Clear All Memories" button handler (lines 222-227), rendered only in
the authenticated sidebar with a present user: `memory.clear(user_id=user.id)`
then `st.session_state.messages = []`. -/
def clearMemoriesHandler (st : SessionState) : SessionState × List Event :=
  match st.authenticated, st.user with
  | true, some u => ({ st with messages := [] }, [.clearCall u.id])
  | _, _ => (st, [])

/-- The Mem0 configuration dict built in `get_memory` (lines 59-73). -/
structure Mem0Config where
  llmProvider : String
  llmModel : String
  vectorStoreProvider : String
  connectionString : String
  collectionName : String
deriving DecidableEq

/-- `get_memory()` (lines 49-74): `os.environ.get('DATABASE_URL')` is `none`
when unset; a falsy value (`none` or the empty string) reports an error and
raises `ValueError`; otherwise the Mem0 store is constructed from the config. -/
def get_memory (model : String) (databaseUrl : Option String) :
    Except String Mem0Config :=
  match databaseUrl with
  | none => .error "DATABASE_URL must be set in your .env file."
  | some url =>
      if url = "" then .error "DATABASE_URL must be set in your .env file."
      else .ok ⟨"openai", model, "supabase", url, "memories"⟩

/-- Lines 77-82: the module-level `try` around resource construction; a
`ValueError` from `get_memory` hits `st.stop()`, so the rest of the script
(auth sidebar and chat interface) never renders.  `true` = rendering
continues. -/
def appRender (model : String) (databaseUrl : Option String) : Bool :=
  match get_memory model databaseUrl with
  | .error _ => false
  | .ok _ => true

/-- The store/completion calls a chat turn issues, as gated by startup: when
`appRender` is `false` the script stopped before the chat interface, so no
turn runs and no call is made. -/
def appTurnEvents (model : String) (databaseUrl : Option String)
    (st : SessionState) (userInput : String)
    (searchRes : Except String (List MemRecord))
    (completionRes : Except String String)
    (addRes : Except String Unit) : List Event :=
  if appRender model databaseUrl then
    (chatInputHandler model st userInput searchRes completionRes addRes).2.2
  else []

/-- Projection of a trace to the `memory.add` calls in it. -/
def addCallsOf (evs : List Event) : List (List Message × String) :=
  evs.filterMap fun e =>
    match e with
    | .addCall msgs uid => some (msgs, uid)
    | _ => none

/-- Projection of a trace to the completion calls in it. -/
def completionCallsOf (evs : List Event) : List (String × List Message) :=
  evs.filterMap fun e =>
    match e with
    | .completionCall m msgs => some (m, msgs)
    | _ => none

/-- Projection of a trace to the `memory.search` calls in it. -/
def searchCallsOf (evs : List Event) : List (String × String × Nat) :=
  evs.filterMap fun e =>
    match e with
    | .searchCall q uid k => some (q, uid, k)
    | _ => none

/-- The inputs of one chat turn: the typed message and the three oracle
outcomes. -/
structure TurnInput where
  userInput : String
  searchRes : Except String (List MemRecord)
  completionRes : Except String String
  addRes : Except String Unit

/-- Run a sequence of chat turns through the chat-input handler. -/
def runTurns (model : String) (st : SessionState) (turns : List TurnInput) :
    SessionState :=
  turns.foldl
    (fun s t => (chatInputHandler model s t.userInput t.searchRes t.completionRes t.addRes).1)
    st

/-- A turn whose input is nonempty and whose three service calls all succeed. -/
def turnOk (t : TurnInput) : Prop :=
  t.userInput ≠ "" ∧ (∃ rs, t.searchRes = Except.ok rs)
    ∧ (∃ a, t.completionRes = Except.ok a) ∧ t.addRes = Except.ok ()

/-- The text of a successful completion outcome. -/
def okText (r : Except String String) : String :=
  match r with
  | .ok a => a
  | .error _ => ""

/-- The session state at context start (lines 158-165). -/
def initialState : SessionState := ⟨[], false, none, false⟩

/-- No message of the transcript carries the `system` role. -/
def noSystemInTranscript (st : SessionState) : Prop :=
  ∀ m ∈ st.messages, m.role ≠ "system"

/-- One UI-driven state transition of the script: a chat turn, an auth
action, or the clear-memories button. -/
inductive Step : SessionState → SessionState → Prop where
  | chat (model input : String) (sr : Except String (List MemRecord))
      (cr : Except String String) (ar : Except String Unit) (st : SessionState) :
      Step st (chatInputHandler model st input sr cr ar).1
  | signUpStep (r : Except String (Option User)) (st : SessionState) :
      Step st (sign_up st r).1
  | signInStep (r : Except String (Option User)) (st : SessionState) :
      Step st (sign_in st r).1
  | signOutStep (r : Except String Unit) (st : SessionState) :
      Step st (sign_out st r).1
  | clearStep (st : SessionState) :
      Step st (clearMemoriesHandler st).1

/-- States the script can reach from a fresh UI context. -/
inductive Reachable : SessionState → Prop where
  | init : Reachable initialState
  | step {s t : SessionState} : Reachable s → Step s t → Reachable t

/-- The spec-level view of a `Session`: `{authenticated, user, transcript}`
(§3 of the design); the transient rerun flag is UI plumbing outside it. -/
def sessionView (st : SessionState) : Bool × Option User × List Message :=
  (st.authenticated, st.user, st.messages)

/-- A sample authenticated state with an empty transcript. -/
def demoUser : User := ⟨"u1", "alice@example.com"⟩

/-- An authenticated session with an empty transcript. -/
def st0 : SessionState := ⟨[], true, some demoUser, false⟩

/-! ## Helper lemmas -/

/-- The chat-input handler never changes `authenticated` or `user`. -/
theorem chatInputHandler_auth (model : String) (st : SessionState) (input : String)
    (sr : Except String (List MemRecord)) (cr : Except String String)
    (ar : Except String Unit) :
    (chatInputHandler model st input sr cr ar).1.authenticated = st.authenticated
      ∧ (chatInputHandler model st input sr cr ar).1.user = st.user := by
  unfold chatInputHandler
  cases hA : st.authenticated <;> cases hU : st.user <;> simp [hA, hU]
  split
  · simp [hA, hU]
  · split <;> simp [hA, hU]

/-- A turn whose services all succeed appends the user and assistant messages
and nothing else, and leaves the other session fields unchanged. -/
theorem chatInputHandler_ok (model : String) (st : SessionState) (t : TurnInput)
    (u : User) (hA : st.authenticated = true) (hU : st.user = some u)
    (h : turnOk t) :
    (chatInputHandler model st t.userInput t.searchRes t.completionRes t.addRes).1
      = { st with messages :=
            st.messages ++ [⟨"user", t.userInput⟩, ⟨"assistant", okText t.completionRes⟩] } := by
  obtain ⟨hne, ⟨rs, hs⟩, ⟨a, hc⟩, ha⟩ := h
  unfold chatInputHandler
  rw [hA, hU, hs, hc, ha]
  simp [hne, chatWithMemories, hc, okText]

/-! ## C1 -/

/-- Claim C1 as stated is false: with a store failure during search, the turn
from the authenticated empty-transcript state `st0` with input `"hello"` does
append a message (the user message, added before `chat_with_memories` runs),
so the transcript is not left as it was before the turn. -/
theorem C1_counterexample :
    (chatInputHandler "gpt-4o-mini" st0 "hello" (Except.error "store down")
        (Except.error "unused") (Except.ok ())).1.messages ≠ st0.messages := by
  decide

/-- Claim C1 (amended): a turn in which `chat_with_memories` raises (search,
completion, or add fails) leaves the transcript equal to its pre-turn value
plus exactly the already-appended user message; no assistant message is
appended by the failed turn. -/
theorem C1_failed_turn (model input e : String) (st : SessionState) (u : User)
    (sr : Except String (List MemRecord)) (cr : Except String String)
    (ar : Except String Unit)
    (hA : st.authenticated = true) (hU : st.user = some u) (hne : input ≠ "")
    (hfail : (chatWithMemories model input u.id sr cr ar).1 = Except.error e) :
    (chatInputHandler model st input sr cr ar).1.messages
      = st.messages ++ [⟨"user", input⟩] := by
  unfold chatInputHandler
  rw [hA, hU]
  rcases hres : chatWithMemories model input u.id sr cr ar with ⟨r, evs⟩
  rw [hres] at hfail
  cases r with
  | error e2 => simp [hne, hres]
  | ok a => simp at hfail

/-- Witness for the amended C1 at a concrete failing turn. -/
theorem C1_witness :
    (chatInputHandler "gpt-4o-mini" st0 "hello" (Except.error "store down")
        (Except.error "unused") (Except.ok ())).1.messages
      = st0.messages ++ [⟨"user", "hello"⟩] :=
  C1_failed_turn "gpt-4o-mini" "hello" "store down" st0 demoUser
    (Except.error "store down") (Except.error "unused") (Except.ok ())
    rfl rfl (by decide) rfl

/-! ## C2 -/

/-- Claim C2 as stated is false: on a successful turn (empty search result,
completion answer `"hello!"`), `memory.add` is not invoked with the
two-element list `[user_message, assistant_message]` — the list passed also
contains the system grounding message. -/
theorem C2_counterexample :
    addCallsOf (chatWithMemories "gpt-4o-mini" "hi" "u1" (Except.ok [])
        (Except.ok "hello!") (Except.ok ())).2
      ≠ [([⟨"user", "hi"⟩, ⟨"assistant", "hello!"⟩], "u1")] := by
  decide

/-- Claim C2 (amended): for every successful turn, `memory.add` is invoked
exactly once, with the three-element message list
`[system_grounding, user_message, assistant_message]` for the session's user
id, and with no other messages. -/
theorem C2_add_three_messages (model message userId a : String)
    (rs : List MemRecord) :
    addCallsOf (chatWithMemories model message userId (Except.ok rs)
        (Except.ok a) (Except.ok ())).2
      = [([⟨"system", groundingHeader ++ memoriesStr rs⟩,
           ⟨"user", message⟩, ⟨"assistant", a⟩], userId)] := by
  simp [chatWithMemories, addCallsOf]

/-! ## C3 -/

/-- A list made of two entries per element has twice the length. -/
theorem length_pair_flatMap {α β : Type} (f g : α → β) (l : List α) :
    (l.flatMap (fun t => [f t, g t])).length = 2 * l.length := by
  induction l with
  | nil => simp
  | cons a l ih =>
      simp only [List.flatMap_cons, List.length_append, List.length_cons,
        List.length_nil, List.length_cons, ih]
      omega

/-- Running successful turns from an authenticated state appends, per turn,
the user message then the assistant message. -/
theorem runTurns_messages (model : String) (turns : List TurnInput) :
    ∀ st : SessionState, st.authenticated = true → (∀ t ∈ turns, turnOk t) →
      (∃ u, st.user = some u) →
      (runTurns model st turns).messages
        = st.messages ++ turns.flatMap
            (fun t => [⟨"user", t.userInput⟩, ⟨"assistant", okText t.completionRes⟩]) := by
  induction turns with
  | nil => intro st hA hOk hU; simp [runTurns]
  | cons t ts ih =>
      intro st hA hOk hU
      obtain ⟨u, hU⟩ := hU
      have hstep := chatInputHandler_ok model st t u hA hU (hOk t (List.mem_cons_self t ts))
      have hAuth := chatInputHandler_auth model st t.userInput t.searchRes
        t.completionRes t.addRes
      have hrest := ih ((chatInputHandler model st t.userInput t.searchRes
          t.completionRes t.addRes).1)
        (by rw [hAuth.1, hA]) (fun x hx => hOk x (List.mem_cons_of_mem _ hx))
        ⟨u, by rw [hAuth.2, hU]⟩
      simp only [runTurns, List.foldl_cons] at hrest ⊢
      rw [hrest, hstep]
      simp [List.flatMap_cons, List.append_assoc]

/-- Claim C3: from an empty transcript, after a sequence of N successful
turns the transcript is exactly the chronological interleaving, user message
then assistant message, of each turn, and its length is 2N. -/
theorem C3_transcript_after_turns (model : String) (st : SessionState)
    (turns : List TurnInput)
    (hA : st.authenticated = true) (hU : ∃ u, st.user = some u)
    (hM : st.messages = []) (hOk : ∀ t ∈ turns, turnOk t) :
    (runTurns model st turns).messages
        = turns.flatMap
            (fun t => [⟨"user", t.userInput⟩, ⟨"assistant", okText t.completionRes⟩])
      ∧ (runTurns model st turns).messages.length = 2 * turns.length := by
  have h := runTurns_messages model turns st hA hOk hU
  rw [hM] at h
  simp only [List.nil_append] at h
  refine ⟨h, ?_⟩
  rw [h, length_pair_flatMap]

/-- Witness for C3: one successful turn from the authenticated empty state
yields the two-message transcript. -/
theorem C3_witness :
    (runTurns "gpt-4o-mini" st0
          [⟨"hi", Except.ok [], Except.ok "hello", Except.ok ()⟩]).messages
        = [⟨"user", "hi"⟩, ⟨"assistant", "hello"⟩]
      ∧ (runTurns "gpt-4o-mini" st0
          [⟨"hi", Except.ok [], Except.ok "hello", Except.ok ()⟩]).messages.length
        = 2 * 1 := by
  have h := C3_transcript_after_turns "gpt-4o-mini" st0
    [⟨"hi", Except.ok [], Except.ok "hello", Except.ok ()⟩]
    rfl ⟨demoUser, rfl⟩ rfl
    (by intro t ht
        simp only [List.mem_singleton] at ht
        subst ht
        exact ⟨by decide, ⟨[], rfl⟩, ⟨"hello", rfl⟩, rfl⟩)
  simpa [okText] using h

/-! ## C4 -/

/-- Claim C4: whenever the search succeeds, the turn issues exactly one
search call — with query equal to the user message, the session's user id and
limit 3 — and exactly one completion call, whose request is exactly the two
messages [system grounding, current user message], the grounding being the
fixed instruction text followed by the retrieved memory texts each prefixed
with "- " and newline-joined in the order returned by search. -/
theorem C4_completion_request (model message userId : String)
    (rs : List MemRecord) (cr : Except String String) (ar : Except String Unit) :
    searchCallsOf (chatWithMemories model message userId (Except.ok rs) cr ar).2
        = [(message, userId, 3)]
      ∧ completionCallsOf (chatWithMemories model message userId (Except.ok rs) cr ar).2
        = [(model, [⟨"system", groundingHeader ++ memoriesStr rs⟩, ⟨"user", message⟩])] := by
  cases cr <;> cases ar <;>
    simp [chatWithMemories, searchCallsOf, completionCallsOf]

/-! ## C5 -/

/-- Any message in the transcript after a chat-input turn was already there,
or carries the `user` or `assistant` role. -/
theorem chatInputHandler_roles (model : String) (st : SessionState) (input : String)
    (sr : Except String (List MemRecord)) (cr : Except String String)
    (ar : Except String Unit) :
    ∀ m ∈ (chatInputHandler model st input sr cr ar).1.messages,
      m ∈ st.messages ∨ m.role = "user" ∨ m.role = "assistant" := by
  unfold chatInputHandler
  cases hA : st.authenticated
  case false => cases hU : st.user <;> exact fun m hm => Or.inl hm
  case true =>
    cases hU : st.user
    case none => exact fun m hm => Or.inl hm
    case some u =>
      by_cases hin : input = ""
      · simp only [hin, if_true]
        exact fun m hm => Or.inl hm
      · simp only [hin, if_false]
        rcases hres : chatWithMemories model input u.id sr cr ar with ⟨r, evs⟩
        cases r with
        | error e =>
            intro m hm
            rcases List.mem_append.mp hm with hm2 | hm2
            · exact Or.inl hm2
            · rw [List.mem_singleton.mp hm2]
              exact Or.inr (Or.inl rfl)
        | ok a =>
            intro m hm
            rcases List.mem_append.mp hm with hm2 | hm2
            · rcases List.mem_append.mp hm2 with hm3 | hm3
              · exact Or.inl hm3
              · rw [List.mem_singleton.mp hm3]
                exact Or.inr (Or.inl rfl)
            · rw [List.mem_singleton.mp hm2]
              exact Or.inr (Or.inr rfl)

/-- `sign_up` never changes the transcript. -/
theorem sign_up_messages (st : SessionState) (r : Except String (Option User)) :
    (sign_up st r).1.messages = st.messages := by
  rcases r with e | u
  · simp [sign_up]
  · rcases u with _ | u <;> simp [sign_up]

/-- `sign_in` never changes the transcript. -/
theorem sign_in_messages (st : SessionState) (r : Except String (Option User)) :
    (sign_in st r).1.messages = st.messages := by
  rcases r with e | u
  · simp [sign_in]
  · rcases u with _ | u <;> simp [sign_in]

/-- `sign_out` never changes the transcript. -/
theorem sign_out_messages (st : SessionState) (r : Except String Unit) :
    (sign_out st r).1.messages = st.messages := by
  rcases r with e | u <;> simp [sign_out]

/-- The clear-memories handler leaves the transcript empty or unchanged. -/
theorem clearMemoriesHandler_messages (st : SessionState) :
    (clearMemoriesHandler st).1.messages = [] ∨
      (clearMemoriesHandler st).1.messages = st.messages := by
  unfold clearMemoriesHandler
  cases hA : st.authenticated <;> cases hU : st.user <;> simp

/-- Claim C5: in every state the script can reach, no transcript message has
the `system` role — the synthesized grounding message is never persisted. -/
theorem C5_no_system_in_transcript (st : SessionState) (h : Reachable st) :
    noSystemInTranscript st := by
  induction h with
  | init => intro m hm; simp [initialState] at hm
  | step hr hs ih =>
      rename_i s t
      cases hs with
      | chat model input sr cr ar =>
          intro m hm
          rcases chatInputHandler_roles model s input sr cr ar m hm with h1 | h2 | h2
          · exact ih m h1
          · rw [h2]; decide
          · rw [h2]; decide
      | signUpStep r => intro m hm; rw [sign_up_messages] at hm; exact ih m hm
      | signInStep r => intro m hm; rw [sign_in_messages] at hm; exact ih m hm
      | signOutStep r => intro m hm; rw [sign_out_messages] at hm; exact ih m hm
      | clearStep =>
          intro m hm
          rcases clearMemoriesHandler_messages s with he | he
          · rw [he] at hm; simp at hm
          · rw [he] at hm; exact ih m hm

/-- A successfully completed demo turn, reached by signing in and chatting. -/
def demoState2 : SessionState :=
  (chatInputHandler "gpt-4o-mini" (sign_in initialState (Except.ok (some demoUser))).1
      "hi" (Except.ok []) (Except.ok "hello") (Except.ok ())).1

/-- Witness for C5 at the reachable state `demoState2`, whose transcript is
nonempty. -/
theorem C5_witness : noSystemInTranscript demoState2 :=
  C5_no_system_in_transcript demoState2
    (Reachable.step
      (Reachable.step Reachable.init
        (Step.signInStep (Except.ok (some demoUser)) initialState))
      (Step.chat "gpt-4o-mini" "hi" (Except.ok []) (Except.ok "hello")
        (Except.ok ()) (sign_in initialState (Except.ok (some demoUser))).1))

/-! ## C6 -/

/-- Claim C6: a turn in which search returns zero memories does not fail —
joining the empty memory list yields the empty string, the grounding message
is still produced (fixed instruction text followed by the empty memory
block), the completion call is still made with it, and with the remaining
services succeeding the turn returns the assistant text. -/
theorem C6_zero_memories (model message userId a : String) :
    memoriesStr [] = ""
      ∧ completionCallsOf (chatWithMemories model message userId (Except.ok [])
            (Except.ok a) (Except.ok ())).2
        = [(model, [⟨"system", groundingHeader ++ memoriesStr []⟩, ⟨"user", message⟩])]
      ∧ (chatWithMemories model message userId (Except.ok [])
            (Except.ok a) (Except.ok ())).1 = Except.ok a := by
  refine ⟨rfl, ?_, rfl⟩
  simp [chatWithMemories, completionCallsOf]

/-! ## C7 -/

/-- Claim C7: `sign_out` is idempotent.  Invoked while the session is already
Anonymous (flag false, user absent), the successful call reports no error and
leaves the spec-level session — authentication flag, bound user, transcript —
unchanged; and two consecutive calls leave the full session state exactly as
one call does. -/
theorem C7_sign_out_idempotent (st : SessionState)
    (h : st.authenticated = false ∧ st.user = none) :
    (sign_out st (Except.ok ())).2 = none
      ∧ sessionView (sign_out st (Except.ok ())).1 = sessionView st
      ∧ (sign_out (sign_out st (Except.ok ())).1 (Except.ok ())).1
        = (sign_out st (Except.ok ())).1 := by
  refine ⟨rfl, ?_, rfl⟩
  simp [sign_out, sessionView, h.1, h.2]

/-- Witness for C7 at the fresh Anonymous state. -/
theorem C7_witness :
    (sign_out initialState (Except.ok ())).2 = none
      ∧ sessionView (sign_out initialState (Except.ok ())).1 = sessionView initialState
      ∧ (sign_out (sign_out initialState (Except.ok ())).1 (Except.ok ())).1
        = (sign_out initialState (Except.ok ())).1 :=
  C7_sign_out_idempotent initialState ⟨rfl, rfl⟩

/-! ## C8 -/

/-- Claim C8: in an authenticated state with bound user `u`, the
clear-memories handler issues exactly one store call — `clear` for `u.id` —
empties the transcript, and leaves the authentication flag and the bound user
unchanged. -/
theorem C8_clear_memories (st : SessionState) (u : User)
    (hA : st.authenticated = true) (hU : st.user = some u) :
    (clearMemoriesHandler st).1.messages = []
      ∧ (clearMemoriesHandler st).1.authenticated = st.authenticated
      ∧ (clearMemoriesHandler st).1.user = st.user
      ∧ (clearMemoriesHandler st).2 = [Event.clearCall u.id] := by
  unfold clearMemoriesHandler
  rw [hA, hU]
  exact ⟨rfl, rfl, rfl, rfl⟩

/-- Witness for C8 at a concrete authenticated state with a nonempty
transcript. -/
theorem C8_witness :
    (clearMemoriesHandler
        ⟨[⟨"user", "hi"⟩, ⟨"assistant", "hello"⟩], true, some demoUser, false⟩).1.messages = []
      ∧ (clearMemoriesHandler
        ⟨[⟨"user", "hi"⟩, ⟨"assistant", "hello"⟩], true, some demoUser, false⟩).1.authenticated
        = (⟨[⟨"user", "hi"⟩, ⟨"assistant", "hello"⟩], true, some demoUser, false⟩ : SessionState).authenticated
      ∧ (clearMemoriesHandler
        ⟨[⟨"user", "hi"⟩, ⟨"assistant", "hello"⟩], true, some demoUser, false⟩).1.user
        = (⟨[⟨"user", "hi"⟩, ⟨"assistant", "hello"⟩], true, some demoUser, false⟩ : SessionState).user
      ∧ (clearMemoriesHandler
        ⟨[⟨"user", "hi"⟩, ⟨"assistant", "hello"⟩], true, some demoUser, false⟩).2
        = [Event.clearCall demoUser.id] :=
  C8_clear_memories
    ⟨[⟨"user", "hi"⟩, ⟨"assistant", "hello"⟩], true, some demoUser, false⟩
    demoUser rfl rfl

/-! ## C9 -/

/-- Claim C9: each auth operation is atomic on the session.  A provider
exception leaves the whole session state exactly as it was (for `sign_up`,
`sign_in` and `sign_out` alike, with the error reported), a response without
a user changes nothing, and a response with a user updates the flag and the
bound user together. -/
theorem C9_auth_atomicity (st : SessionState) (e : String) (u : User) :
    (sign_up st (Except.error e)).1 = st
      ∧ (sign_in st (Except.error e)).1 = st
      ∧ (sign_out st (Except.error e)).1 = st
      ∧ (sign_up st (Except.ok none)).1 = st
      ∧ (sign_in st (Except.ok none)).1 = st
      ∧ (sign_up st (Except.ok (some u))).1.authenticated = true
      ∧ (sign_up st (Except.ok (some u))).1.user = some u
      ∧ (sign_in st (Except.ok (some u))).1.authenticated = true
      ∧ (sign_in st (Except.ok (some u))).1.user = some u := by
  exact ⟨rfl, rfl, rfl, rfl, rfl, rfl, rfl, rfl, rfl⟩

/-! ## C10 -/

/-- Claim C10: a falsy `DATABASE_URL` (absent or empty) makes `get_memory`
fail with the configuration error, which halts all further rendering — so no
turn ever issues a service call; and independently, a turn whose completion
call fails never reaches `memory.add`, so nothing is written to the store. -/
theorem C10_config_failure_halts (model : String) (url : Option String)
    (h : url = none ∨ url = some "") :
    get_memory model url = Except.error "DATABASE_URL must be set in your .env file."
      ∧ appRender model url = false
      ∧ (∀ st input sr cr ar, appTurnEvents model url st input sr cr ar = [])
      ∧ (∀ message userId e2 sr ar,
          addCallsOf (chatWithMemories model message userId sr (Except.error e2) ar).2 = []) := by
  have hg : get_memory model url = Except.error "DATABASE_URL must be set in your .env file." := by
    rcases h with rfl | rfl <;> simp [get_memory]
  have hr : appRender model url = false := by
    rw [appRender, hg]
  refine ⟨hg, hr, ?_, ?_⟩
  · intro st input sr cr ar
    rw [appTurnEvents, hr]
    simp
  · intro message userId e2 sr ar
    rcases sr with e3 | rs <;> simp [chatWithMemories, addCallsOf]

/-- Witness for C10 with `DATABASE_URL` unset, attempting a turn whose
completion fails. -/
theorem C10_witness :
    get_memory "gpt-4o-mini" none
        = Except.error "DATABASE_URL must be set in your .env file."
      ∧ appRender "gpt-4o-mini" none = false
      ∧ appTurnEvents "gpt-4o-mini" none st0 "hi" (Except.ok [])
          (Except.error "api down") (Except.ok ()) = []
      ∧ addCallsOf (chatWithMemories "gpt-4o-mini" "hi" "u1" (Except.ok [])
          (Except.error "api down") (Except.ok ())).2 = [] :=
  ⟨(C10_config_failure_halts "gpt-4o-mini" none (Or.inl rfl)).1,
   (C10_config_failure_halts "gpt-4o-mini" none (Or.inl rfl)).2.1,
   (C10_config_failure_halts "gpt-4o-mini" none (Or.inl rfl)).2.2.1 st0 "hi"
     (Except.ok []) (Except.error "api down") (Except.ok ()),
   (C10_config_failure_halts "gpt-4o-mini" none (Or.inl rfl)).2.2.2 "hi" "u1"
     "api down" (Except.ok []) (Except.ok ())⟩
